import Mathlib

/-!
Verification of the expense-dashboard aggregation and limit-alert logic.

The embedding follows the source components:
- `ExpenseChart` (category totals and chart data),
- `Dashboard` (today total, grand total, over-limit signal, remaining display),
- `ExpenseForm` (zod validation schema and the insert payload).

Currency amounts are modelled as exact rationals.  Each read of the system
clock (`new Date().toISOString().split("T")[0]` in the source) is modelled
as an explicit string parameter standing for the value that read returned.
-/

/-- Expense record as held in memory by the dashboard
(Dashboard.tsx lines 18-24). -/
structure Expense where
  id : String
  category : String
  amount : ℚ
  description : String
  date : String
deriving DecidableEq, Repr

/-- Profile record (Dashboard.tsx lines 13-16). -/
structure Profile where
  daily_limit : ℚ
  full_name : String
deriving DecidableEq, Repr

/-- One step of the `reduce` building `categoryTotals` in ExpenseChart:
`acc[category] = (acc[category] || 0) + Number(expense.amount)`.
A JS object keeps first-insertion key order, so the accumulator is an
association list updated in place or extended at the end. -/
def insertAdd : List (String × ℚ) → String → ℚ → List (String × ℚ)
  | [], c, a => [(c, a)]
  | (k, v) :: rest, c, a =>
      if k = c then (k, v + a) :: rest else (k, v) :: insertAdd rest c a

/-- The `categoryTotals` mapping of ExpenseChart (part_000 lines 21-25):
fold of `insertAdd` over the expense list starting from the empty object. -/
def categoryTotals (expenses : List Expense) : List (String × ℚ) :=
  expenses.foldl (fun acc e => insertAdd acc e.category e.amount) []

/-- Grand total of the Dashboard "Total Expenses" card
(Dashboard.tsx line 181): `expenses.reduce((sum, exp) => sum + Number(exp.amount), 0)`. -/
def grandTotal (expenses : List Expense) : ℚ :=
  expenses.foldl (fun sum e => sum + e.amount) 0

/-- The body of `calculateTodayTotal` (Dashboard.tsx lines 88-93).  The
source reads the clock inside the function; the parameter `today` stands
for the string that this particular clock read returned. -/
def calculateTodayTotal (expenses : List Expense) (today : String) : ℚ :=
  (expenses.filter (fun e => e.date = today)).foldl (fun sum e => sum + e.amount) 0

/-- The today-transaction count shown in the "Today's Expenses" card
(Dashboard.tsx line 154).  The source reads the clock again, independently,
at this site; `today` stands for the string that second read returned. -/
def countTodayDisplayed (expenses : List Expense) (today : String) : ℕ :=
  (expenses.filter (fun e => e.date = today)).length

/-- The over-limit signal `isOverLimit = profile && todayTotal > profile.daily_limit`
(Dashboard.tsx line 105).  A `null` profile makes the JS expression falsy,
which suppresses the alert banner (line 132), so it is modelled as `false`. -/
def isOverLimit (profile : Option Profile) (todayTotal : ℚ) : Bool :=
  match profile with
  | none => false
  | some p => decide (todayTotal > p.daily_limit)

/-- The remaining-amount display
`Math.max(0, (profile?.daily_limit || 0) - todayTotal)`
(Dashboard.tsx line 169).  An absent profile contributes the default `0`. -/
def remainingDisplay (profile : Option Profile) (todayTotal : ℚ) : ℚ :=
  max 0 ((match profile with | some p => p.daily_limit | none => 0) - todayTotal)

/-- The values handed to `expenseSchema.parse` in `handleSubmit`
(ExpenseForm.tsx lines 37-42): category, parsed amount, description text,
date string. -/
structure ExpenseInput where
  category : String
  amount : ℚ
  description : String
  date : String
deriving DecidableEq, Repr

/-- The zod `expenseSchema` (ExpenseForm.tsx lines 13-18): category
non-empty, amount strictly positive, description at most 500 characters,
date non-empty.  The schema has no constraint relating the date to the
current date. -/
def validateExpense (i : ExpenseInput) : Bool :=
  decide (1 ≤ i.category.length) && decide (0 < i.amount)
    && decide (i.description.length ≤ 500) && decide (1 ≤ i.date.length)

/-- Row sent to the storage insert (ExpenseForm.tsx lines 56-62),
without the user id. -/
structure InsertPayload where
  category : String
  amount : ℚ
  description : Option String
  date : String
deriving DecidableEq, Repr

/-- The insert payload built in `handleSubmit` (ExpenseForm.tsx lines 56-62):
`description: validated.description || null` maps the empty string (falsy
in JS) to `null` and keeps any non-empty string. -/
def insertPayload (i : ExpenseInput) : InsertPayload :=
  { category := i.category
    amount := i.amount
    description := if i.description = "" then none else some i.description
    date := i.date }

/-- Control flow of `handleSubmit` (ExpenseForm.tsx lines 33-62): the insert
runs exactly when `expenseSchema.parse` does not throw, with the payload of
`insertPayload`. -/
def handleSubmit (i : ExpenseInput) : Option InsertPayload :=
  if validateExpense i then some (insertPayload i) else none

/-- Lexicographic comparison of character sequences, used to compare ISO
`YYYY-MM-DD` date strings: on that shape it coincides with calendar order.
It states the "in the future" relation the validation claims refer to. -/
def charListLt : List Char → List Char → Bool
  | _, [] => false
  | [], _ :: _ => true
  | a :: as, b :: bs => if a < b then true else if b < a then false else charListLt as bs

/-- Calendar order of ISO `YYYY-MM-DD` date strings, via `charListLt`. -/
def isoDateLt (a b : String) : Bool := charListLt a.data b.data

/-- A left fold adding amounts equals the start value plus the sum of the
amounts, mirroring the JS `reduce((sum, exp) => sum + exp.amount, 0)`. -/
lemma foldl_add_amount (es : List Expense) (s : ℚ) :
    es.foldl (fun sum e => sum + e.amount) s = s + (es.map Expense.amount).sum := by
  induction es generalizing s with
  | nil => simp
  | cons e es ih => rw [List.foldl_cons, ih, List.map_cons, List.sum_cons]; ring

/-- One `insertAdd` step raises the total of the mapping's values by
exactly the inserted amount. -/
lemma sumValues_insertAdd (acc : List (String × ℚ)) (c : String) (a : ℚ) :
    ((insertAdd acc c a).map Prod.snd).sum = (acc.map Prod.snd).sum + a := by
  induction acc with
  | nil => simp [insertAdd]
  | cons p rest ih =>
      obtain ⟨k, v⟩ := p
      by_cases h : k = c
      · simp [insertAdd, h]; ring
      · simp [insertAdd, h, ih]; ring

/-- Folding `insertAdd` over a list of expenses adds the sum of all their
amounts to the total of the accumulator's values. -/
lemma sumValues_foldl (es : List Expense) (acc : List (String × ℚ)) :
    ((es.foldl (fun acc e => insertAdd acc e.category e.amount) acc).map Prod.snd).sum
      = (acc.map Prod.snd).sum + (es.map Expense.amount).sum := by
  induction es generalizing acc with
  | nil => simp
  | cons e es ih =>
      rw [List.foldl_cons, ih, sumValues_insertAdd, List.map_cons, List.sum_cons]; ring

/-- Summing the amounts of a filtered expense list can only lose ground
against summing all of them, provided every amount is non-negative. -/
lemma sum_map_filter_le (es : List Expense) (p : Expense → Bool)
    (h : ∀ e ∈ es, 0 ≤ e.amount) :
    ((es.filter p).map Expense.amount).sum ≤ (es.map Expense.amount).sum := by
  induction es with
  | nil => simp
  | cons e es ih =>
      have he : 0 ≤ e.amount := h e (List.mem_cons_self e es)
      have ht := ih (fun x hx => h x (List.mem_cons_of_mem e hx))
      by_cases hp : p e
      · simp only [List.filter_cons, hp, if_true, List.map_cons, List.sum_cons]
        linarith
      · simp only [List.filter_cons, hp, if_false, Bool.false_eq_true, List.map_cons,
          List.sum_cons]
        linarith

/-- C1: conservation — for every list of expenses, the values of the
total-by-category mapping built by `ExpenseChart` sum to the grand total
the Dashboard obtains by summing every record's amount directly. -/
theorem C1_conservation (expenses : List Expense) :
    ((categoryTotals expenses).map Prod.snd).sum = grandTotal expenses := by
  unfold categoryTotals grandTotal
  rw [sumValues_foldl, foldl_add_amount]
  simp

/-- C2: the exceeded signal uses strict inequality — with a loaded profile,
`isOverLimit` is true exactly when the today total strictly exceeds the
daily limit, and a total equal to the limit is not flagged. -/
theorem C2_exceeded_strict (t : ℚ) (p : Profile) :
    (isOverLimit (some p) t = true ↔ t > p.daily_limit)
      ∧ (t = p.daily_limit → isOverLimit (some p) t = false) := by
  refine ⟨by simp [isOverLimit], fun h => ?_⟩
  subst h
  simp [isOverLimit]

/-- C3: contrary to the claim, the remaining display at an absent profile
does not signal unknown — at today total 50 it evaluates to
`max 0 (0 - 50) = 0`, substituting a numeric limit of zero. -/
theorem C3_absent_limit_defaults_to_zero :
    remainingDisplay none 50 = max 0 ((0:ℚ) - 50) ∧ remainingDisplay none 50 = 0 := by
  constructor
  · rfl
  · have h : ((0:ℚ) - 50) ≤ 0 := by norm_num
    simp [remainingDisplay, max_eq_left h]

/-- C4: with a loaded profile, the remaining display equals
`max 0 (dailyLimit - todayTotal)` and is never negative. -/
theorem C4_remaining_floor (t : ℚ) (p : Profile) :
    remainingDisplay (some p) t = max 0 (p.daily_limit - t)
      ∧ 0 ≤ remainingDisplay (some p) t :=
  ⟨rfl, le_max_left 0 _⟩

/-- C5: with no profile loaded, the over-limit signal is false for every
today total, in particular for the total computed from any expense list at
any clock reading, so the exceeded alert is suppressed. -/
theorem C5_no_alert_without_profile (expenses : List Expense) (today : String) (t : ℚ) :
    isOverLimit none t = false
      ∧ isOverLimit none (calculateTodayTotal expenses today) = false :=
  ⟨rfl, rfl⟩

/-- C7: the Dashboard reads the clock independently inside
`calculateTodayTotal` and at the transaction-count display; at a midnight
rollover between the two reads, one pass shows a today total of 5 next to
a today count of 0 transactions — the two displays disagree on "today". -/
theorem C7_two_clock_reads_disagree :
    calculateTodayTotal [⟨"e1", "Food", 5, "", "2024-01-01"⟩] "2024-01-01" = 5
      ∧ countTodayDisplayed [⟨"e1", "Food", 5, "", "2024-01-01"⟩] "2024-01-02" = 0 := by
  constructor
  · norm_num [calculateTodayTotal, List.filter]
  · have h : ("2024-01-01" : String) ≠ "2024-01-02" := by decide
    simp [countTodayDisplayed, List.filter, h]

/-- C8 counterexample: a submission dated 9999-12-31 — strictly after the
current date 2026-10-11 in the ISO calendar order — passes the zod schema
and reaches the storage insert: the validation does not reject future
dates. -/
theorem C8_counterexample :
    validateExpense ⟨"Food", 1, "", "9999-12-31"⟩ = true
      ∧ isoDateLt "2026-10-11" "9999-12-31" = true
      ∧ handleSubmit ⟨"Food", 1, "", "9999-12-31"⟩
          = some (insertPayload ⟨"Food", 1, "", "9999-12-31"⟩) := by
  have hv : validateExpense ⟨"Food", 1, "", "9999-12-31"⟩ = true := by
    simp [validateExpense]
    constructor <;> decide
  exact ⟨hv, by decide, by simp [handleSubmit, hv]⟩

/-- C8 amended: before invoking the storage insert, validation rejects
every submission whose category is empty, whose amount is not positive,
whose description exceeds 500 characters, or whose date is empty; the
future-date condition of the original claim is not checked. -/
theorem C8_validation_rejects (i : ExpenseInput)
    (h : i.category = "" ∨ i.amount ≤ 0 ∨ 500 < i.description.length ∨ i.date = "") :
    handleSubmit i = none := by
  have hv : validateExpense i = false := by
    rcases h with h | h | h | h
    · simp [validateExpense, h]
    · simp [validateExpense, not_lt.mpr h]
    · simp [validateExpense, not_le.mpr h]
    · simp [validateExpense, h]
  simp [handleSubmit, hv]

/-- C8 witness: a submission with an empty category is rejected — the
storage insert is never reached. -/
theorem C8_validation_rejects_witness :
    handleSubmit ⟨"", 1, "", "2024-01-01"⟩ = none :=
  C8_validation_rejects ⟨"", 1, "", "2024-01-01"⟩ (Or.inl rfl)

/-- C9: when every amount is non-negative, the today total (sum over the
records dated `today`) never exceeds the grand total over all records. -/
theorem C9_today_le_grand (expenses : List Expense) (today : String)
    (h : ∀ e ∈ expenses, 0 ≤ e.amount) :
    calculateTodayTotal expenses today ≤ grandTotal expenses := by
  unfold calculateTodayTotal grandTotal
  rw [foldl_add_amount, foldl_add_amount]
  have := sum_map_filter_le expenses (fun e => e.date = today) h
  linarith

/-- C9 witness: on a concrete one-element list with non-negative amount,
the today total is bounded by the grand total. -/
theorem C9_today_le_grand_witness :
    calculateTodayTotal [⟨"e1", "Food", 5, "", "2024-01-01"⟩] "2024-01-01"
      ≤ grandTotal [⟨"e1", "Food", 5, "", "2024-01-01"⟩] := by
  refine C9_today_le_grand _ _ ?_
  intro e he
  rw [List.mem_singleton] at he
  subst he
  norm_num

/-- C10: a submission that passes validation with an empty description is
inserted with description `null`, never the empty string. -/
theorem C10_empty_description_null (i : ExpenseInput) (pl : InsertPayload)
    (hs : handleSubmit i = some pl) (hd : i.description = "") :
    pl.description = none := by
  unfold handleSubmit at hs
  split at hs
  · cases hs
    simp [insertPayload, hd]
  · cases hs

/-- C10 witness: a concrete valid submission with empty description yields
an insert payload whose description is `null`. -/
theorem C10_empty_description_null_witness :
    (insertPayload ⟨"Food", 1, "", "2024-01-01"⟩).description = none := by
  have hv : validateExpense ⟨"Food", 1, "", "2024-01-01"⟩ = true := by
    simp [validateExpense]
    constructor <;> decide
  have hs : handleSubmit ⟨"Food", 1, "", "2024-01-01"⟩
      = some (insertPayload ⟨"Food", 1, "", "2024-01-01"⟩) := by
    simp [handleSubmit, hv]
  exact C10_empty_description_null _ _ hs rfl
